import Mathlib

/-
Verification of the cube-texture subsystem (src/utils/cube_texture.rs).

The GPU device is modelled as an oracle for values the device reports
(memory requirements, handles); every recorded GPU command or resource
operation becomes an element of an event trace, and every `panic!` or
`.unwrap()` failure becomes an `Except.error`.  Machine integers are
modelled as `Nat` with explicit `% 2 ^ 32` where u32 overflow matters,
and i32 values (blit offsets) as `Int` with truncating division, as in
Rust.
-/

namespace CubeTex

/-- vk::Format values used by this module. -/
inductive Format where
  | R8G8B8A8_SRGB
  | R8G8B8A8_UNORM
deriving DecidableEq

/-- vk::ImageLayout values relevant to this module. -/
inductive ImageLayout where
  | UNDEFINED
  | GENERAL
  | TRANSFER_SRC_OPTIMAL
  | TRANSFER_DST_OPTIMAL
  | SHADER_READ_ONLY_OPTIMAL
  | COLOR_ATTACHMENT_OPTIMAL
deriving DecidableEq

/-- vk::PipelineStageFlags values used by this module (each use site passes a
single flag, so an enumeration suffices). -/
inductive PipelineStage where
  | TOP_OF_PIPE
  | TRANSFER
  | FRAGMENT_SHADER
  | COLOR_ATTACHMENT_OUTPUT
deriving DecidableEq

/-- vk::Filter. -/
inductive Filter where
  | LINEAR
  | NEAREST
deriving DecidableEq

/-- vk::ImageType. -/
inductive ImageType where
  | TYPE_1D
  | TYPE_2D
  | TYPE_3D
deriving DecidableEq

/-- vk::ImageTiling. -/
inductive ImageTiling where
  | OPTIMAL
  | LINEAR
deriving DecidableEq

/-- vk::AccessFlags restricted to the bits this module ever sets. -/
structure AccessFlags where
  transfer_write : Bool
  transfer_read : Bool
  shader_read : Bool
  color_attachment_read : Bool
  color_attachment_write : Bool
deriving DecidableEq

def AccessFlags.empty : AccessFlags := ⟨false, false, false, false, false⟩

def AccessFlags.TRANSFER_WRITE : AccessFlags := ⟨true, false, false, false, false⟩

def AccessFlags.TRANSFER_READ : AccessFlags := ⟨false, true, false, false, false⟩

def AccessFlags.SHADER_READ : AccessFlags := ⟨false, false, true, false, false⟩

def AccessFlags.COLOR_ATTACHMENT_READ : AccessFlags := ⟨false, false, false, true, false⟩

def AccessFlags.COLOR_ATTACHMENT_WRITE : AccessFlags := ⟨false, false, false, false, true⟩

/-- Bitwise or of two access masks (the `|` operator on vk::AccessFlags). -/
def AccessFlags.or (a b : AccessFlags) : AccessFlags :=
  ⟨a.transfer_write || b.transfer_write,
   a.transfer_read || b.transfer_read,
   a.shader_read || b.shader_read,
   a.color_attachment_read || b.color_attachment_read,
   a.color_attachment_write || b.color_attachment_write⟩

/-- vk::ImageUsageFlags restricted to the bits this module ever sets. -/
structure ImageUsageFlags where
  transfer_src : Bool
  transfer_dst : Bool
  sampled : Bool
deriving DecidableEq

/-- One vk::ImageMemoryBarrier together with the source and destination
pipeline stages of the cmd_pipeline_barrier call that records it.  The
subresource range always uses the COLOR aspect in this module, so the
aspect is not modelled. -/
structure BarrierRecord where
  src_access_mask : AccessFlags
  dst_access_mask : AccessFlags
  old_layout : ImageLayout
  new_layout : ImageLayout
  base_mip_level : Nat
  level_count : Nat
  base_array_layer : Nat
  layer_count : Nat
  src_stage : PipelineStage
  dst_stage : PipelineStage
deriving DecidableEq

/-- One vk::ImageBlit of a cmd_blit_image call.  Offsets index 0 is always
the origin and the z extents are always 1 in the source, so only the second
x and y offsets are modelled. -/
structure BlitRecord where
  src_mip_level : Nat
  src_base_array_layer : Nat
  src_layer_count : Nat
  src_offset_x : Int
  src_offset_y : Int
  dst_mip_level : Nat
  dst_base_array_layer : Nat
  dst_layer_count : Nat
  dst_offset_x : Int
  dst_offset_y : Int
  filter : Filter
deriving DecidableEq

/-- One vk::BufferImageCopy of a cmd_copy_buffer_to_image call. -/
structure CopyRecord where
  mip_level : Nat
  base_array_layer : Nat
  layer_count : Nat
  width : Nat
  height : Nat
  depth : Nat
  buffer_offset : Nat
deriving DecidableEq

/-- The vk::ImageCreateInfo fields this module sets (sharing mode is always
EXCLUSIVE and samples is always TYPE_1 at the one call site, so they are not
modelled). -/
structure ImageCreateInfo where
  cube_compatible : Bool
  image_type : ImageType
  format : Format
  width : Nat
  height : Nat
  depth : Nat
  mip_levels : Nat
  array_layers : Nat
  tiling : ImageTiling
  usage : ImageUsageFlags
  initial_layout : ImageLayout
deriving DecidableEq

/-- A GPU resource operation or recorded command, in program order. -/
inductive Event where
  | create_buffer (size : Nat)
  | map_write (buffer_size : Nat) (write_len : Nat)
  | destroy_buffer
  | free_staging_memory
  | create_image (info : ImageCreateInfo)
  | alloc_memory (size : Nat) (memory_type_index : Nat)
  | bind_image_memory (offset : Nat)
  | barrier (b : BarrierRecord)
  | blit (b : BlitRecord)
  | copy_buffer_to_image (c : CopyRecord)
  | create_image_view (level_count : Nat) (layer_count : Nat)
  | create_sampler (max_lod : Nat)
deriving DecidableEq

/-- The access-mask and pipeline-stage selection of transition_image_layout:
the if-chain over (old_layout, new_layout), with the panic on any
unsupported pair modelled as an error. -/
def transition_access_stages (old_layout new_layout : ImageLayout) :
    Except String (AccessFlags × AccessFlags × PipelineStage × PipelineStage) :=
  if old_layout = ImageLayout.UNDEFINED ∧ new_layout = ImageLayout.TRANSFER_DST_OPTIMAL then
    Except.ok (AccessFlags.empty, AccessFlags.TRANSFER_WRITE,
      PipelineStage.TOP_OF_PIPE, PipelineStage.TRANSFER)
  else if old_layout = ImageLayout.TRANSFER_DST_OPTIMAL ∧
      new_layout = ImageLayout.SHADER_READ_ONLY_OPTIMAL then
    Except.ok (AccessFlags.TRANSFER_WRITE, AccessFlags.SHADER_READ,
      PipelineStage.TRANSFER, PipelineStage.FRAGMENT_SHADER)
  else if old_layout = ImageLayout.UNDEFINED ∧
      new_layout = ImageLayout.COLOR_ATTACHMENT_OPTIMAL then
    Except.ok (AccessFlags.empty,
      AccessFlags.or AccessFlags.COLOR_ATTACHMENT_READ AccessFlags.COLOR_ATTACHMENT_WRITE,
      PipelineStage.TOP_OF_PIPE, PipelineStage.COLOR_ATTACHMENT_OUTPUT)
  else
    Except.error "Unsupported layout transition!"

/-- transition_image_layout: one barrier covering mips 0..mip_levels and
layers 0..layer_count with the selected masks and stages, or the
unsupported-transition panic. -/
def transition_image_layout (old_layout new_layout : ImageLayout)
    (mip_levels layer_count : Nat) : Except String (List Event) :=
  (transition_access_stages old_layout new_layout).map (fun p =>
    [Event.barrier
      { src_access_mask := p.1, dst_access_mask := p.2.1,
        old_layout := old_layout, new_layout := new_layout,
        base_mip_level := 0, level_count := mip_levels,
        base_array_layer := 0, layer_count := layer_count,
        src_stage := p.2.2.1, dst_stage := p.2.2.2 }])

/-- Spec side, for refinement only: the table of section 4.3 of the spec,
three supported (old, new) rows with their access masks and stages, every
other pair being a fatal unsupported-transition error. -/
def spec_transition_table :
    List ((ImageLayout × ImageLayout) ×
      (AccessFlags × AccessFlags × PipelineStage × PipelineStage)) :=
  [((ImageLayout.UNDEFINED, ImageLayout.TRANSFER_DST_OPTIMAL),
    (AccessFlags.empty, AccessFlags.TRANSFER_WRITE,
     PipelineStage.TOP_OF_PIPE, PipelineStage.TRANSFER)),
   ((ImageLayout.TRANSFER_DST_OPTIMAL, ImageLayout.SHADER_READ_ONLY_OPTIMAL),
    (AccessFlags.TRANSFER_WRITE, AccessFlags.SHADER_READ,
     PipelineStage.TRANSFER, PipelineStage.FRAGMENT_SHADER)),
   ((ImageLayout.UNDEFINED, ImageLayout.COLOR_ATTACHMENT_OPTIMAL),
    (AccessFlags.empty,
     AccessFlags.or AccessFlags.COLOR_ATTACHMENT_READ AccessFlags.COLOR_ATTACHMENT_WRITE,
     PipelineStage.TOP_OF_PIPE, PipelineStage.COLOR_ATTACHMENT_OUTPUT))]

/-- Spec side, for refinement only: selection by lookup in the table of the
spec. -/
def spec_transition_select (old_layout new_layout : ImageLayout) :
    Except String (AccessFlags × AccessFlags × PipelineStage × PipelineStage) :=
  match spec_transition_table.lookup (old_layout, new_layout) with
  | some p => Except.ok p
  | none => Except.error "Unsupported layout transition!"

/-- copy_buffer_to_image: one region, mip 0, layers 0..array_size, zero
offsets. -/
def copy_buffer_to_image (width height array_size : Nat) : List Event :=
  [Event.copy_buffer_to_image
    { mip_level := 0, base_array_layer := 0, layer_count := array_size,
      width := width, height := height, depth := 1, buffer_offset := 0 }]

/-- The value of `width as i32` for a u32 `width`, as in Rust (two's
complement reinterpretation). -/
def i32ofU32 (n : Nat) : Int :=
  if n < 2 ^ 31 then (n : Int) else (n : Int) - 2 ^ 32

/-- `max(x / 2, 1)` on i32, with Rust division truncating toward zero. -/
def mipHalf (x : Int) : Int := max (x.tdiv 2) 1

/-- The first barrier of a generate_mipmaps loop iteration `i`: level i-1
from TRANSFER_DST to TRANSFER_SRC. -/
def pre_blit_barrier (i layer_count : Nat) : BarrierRecord :=
  { src_access_mask := AccessFlags.TRANSFER_WRITE,
    dst_access_mask := AccessFlags.TRANSFER_READ,
    old_layout := ImageLayout.TRANSFER_DST_OPTIMAL,
    new_layout := ImageLayout.TRANSFER_SRC_OPTIMAL,
    base_mip_level := i - 1, level_count := 1,
    base_array_layer := 0, layer_count := layer_count,
    src_stage := PipelineStage.TRANSFER, dst_stage := PipelineStage.TRANSFER }

/-- The blit of a generate_mipmaps loop iteration `i`: level i-1 at the
current mip extent into level i at the halved extent, one array layer,
linear filter. -/
def blit_record (i : Nat) (mip_width mip_height : Int) : BlitRecord :=
  { src_mip_level := i - 1, src_base_array_layer := 0, src_layer_count := 1,
    src_offset_x := mip_width, src_offset_y := mip_height,
    dst_mip_level := i, dst_base_array_layer := 0, dst_layer_count := 1,
    dst_offset_x := mipHalf mip_width, dst_offset_y := mipHalf mip_height,
    filter := Filter.LINEAR }

/-- The second barrier of a generate_mipmaps loop iteration `i`: level i-1
from TRANSFER_SRC to SHADER_READ_ONLY. -/
def post_blit_barrier (i layer_count : Nat) : BarrierRecord :=
  { src_access_mask := AccessFlags.TRANSFER_READ,
    dst_access_mask := AccessFlags.SHADER_READ,
    old_layout := ImageLayout.TRANSFER_SRC_OPTIMAL,
    new_layout := ImageLayout.SHADER_READ_ONLY_OPTIMAL,
    base_mip_level := i - 1, level_count := 1,
    base_array_layer := 0, layer_count := layer_count,
    src_stage := PipelineStage.TRANSFER, dst_stage := PipelineStage.FRAGMENT_SHADER }

/-- The barrier after the generate_mipmaps loop: level mip_levels-1 from
TRANSFER_DST to SHADER_READ_ONLY. -/
def final_mip_barrier (mip_levels layer_count : Nat) : BarrierRecord :=
  { src_access_mask := AccessFlags.TRANSFER_WRITE,
    dst_access_mask := AccessFlags.SHADER_READ,
    old_layout := ImageLayout.TRANSFER_DST_OPTIMAL,
    new_layout := ImageLayout.SHADER_READ_ONLY_OPTIMAL,
    base_mip_level := mip_levels - 1, level_count := 1,
    base_array_layer := 0, layer_count := layer_count,
    src_stage := PipelineStage.TRANSFER, dst_stage := PipelineStage.FRAGMENT_SHADER }

/-- The `for i in 1..mip_levels` loop of generate_mipmaps, by remaining
iteration count: `mip_loop lc w h i n` runs iterations i, i+1, ..., i+n-1
with current mip extent (w, h), halving the extent at the end of each
iteration exactly as the source mutates mip_width and mip_height. -/
def mip_loop (layer_count : Nat) : Int → Int → Nat → Nat → List Event
  | _, _, _, 0 => []
  | mip_width, mip_height, i, n + 1 =>
    Event.barrier (pre_blit_barrier i layer_count)
    :: Event.blit (blit_record i mip_width mip_height)
    :: Event.barrier (post_blit_barrier i layer_count)
    :: mip_loop layer_count (mipHalf mip_width) (mipHalf mip_height) (i + 1) n

/-- generate_mipmaps: the loop runs mip_levels - 1 iterations (the u32 range
1..mip_levels), starting from the texture extent cast to i32, then the final
barrier for level mip_levels - 1 is always recorded. -/
def generate_mipmaps (tex_width tex_height mip_levels layer_count : Nat) : List Event :=
  mip_loop layer_count (i32ofU32 tex_width) (i32ofU32 tex_height) 1 (mip_levels - 1)
  ++ [Event.barrier (final_mip_barrier mip_levels layer_count)]

/-- The mip extent after k halvings of the initial extent. -/
def mip_dims (mip_width mip_height : Int) : Nat → Int × Int
  | 0 => (mip_width, mip_height)
  | k + 1 => mip_dims (mipHalf mip_width) (mipHalf mip_height) k

/-- The blit records of a trace, in order. -/
def blit_events : List Event → List BlitRecord
  | [] => []
  | Event.blit b :: rest => b :: blit_events rest
  | _ :: rest => blit_events rest

def blit_count (events : List Event) : Nat := (blit_events events).length

def barrier_count (events : List Event) : Nat :=
  (events.filter (fun e => match e with | Event.barrier _ => true | _ => false)).length

/-- vk::MemoryPropertyFlags restricted to the bits this module ever
requests. -/
structure MemPropFlags where
  device_local : Bool
  host_visible : Bool
  host_coherent : Bool
deriving DecidableEq

/-- All bits of `required` are present in `available`. -/
def MemPropFlags.hasAll (available required : MemPropFlags) : Bool :=
  (!required.device_local || available.device_local) &&
  (!required.host_visible || available.host_visible) &&
  (!required.host_coherent || available.host_coherent)

def MemPropFlags.DEVICE_LOCAL : MemPropFlags := ⟨true, false, false⟩

/-- The memory requirements the device reports for the created image. -/
structure MemReq where
  size : Nat
  memory_type_bits : Nat
deriving DecidableEq

/-- Values the external device reports or returns: the memory requirement of
the created image and the opaque handles of the created objects. -/
structure DeviceOracle where
  image_mem_req : MemReq
  image_handle : Nat
  memory_handle : Nat
  view_handle : Nat
  sampler_handle : Nat
deriving DecidableEq

def find_mem_type_aux (type_bits : Nat) (required : MemPropFlags) :
    Nat → List MemPropFlags → Option Nat
  | _, [] => none
  | i, flags :: rest =>
    if type_bits.testBit i && MemPropFlags.hasAll flags required then some i
    else find_mem_type_aux type_bits required (i + 1) rest

/-- Modelled from the spec: `buffer_utils::find_memory_type` is not among the
sources of this repository snapshot; per the device memory query service of
the spec it picks a memory type index allowed by `type_bits` whose property
flags satisfy all requested property flags, failing fatally (here `none`)
when no such type exists. -/
def find_memory_type (type_bits : Nat) (required : MemPropFlags)
    (device_memory_properties : List MemPropFlags) : Option Nat :=
  find_mem_type_aux type_bits required 0 device_memory_properties

/-- create_image: builds the create info (always CUBE_COMPATIBLE, TYPE_2D,
depth 1, UNDEFINED initial layout), allocates memory of the size the device
reports for the image using the found memory type, and binds at offset 0.
A failed memory-type search is the fatal path of the external helper. -/
def create_image (oracle : DeviceOracle) (width height array_size mip_levels : Nat)
    (format : Format) (tiling : ImageTiling) (usage : ImageUsageFlags)
    (required_memory_properties : MemPropFlags)
    (device_memory_properties : List MemPropFlags) :
    List Event × Except String Unit :=
  let info : ImageCreateInfo :=
    { cube_compatible := true, image_type := ImageType.TYPE_2D, format := format,
      width := width, height := height, depth := 1,
      mip_levels := mip_levels, array_layers := array_size,
      tiling := tiling, usage := usage, initial_layout := ImageLayout.UNDEFINED }
  match find_memory_type oracle.image_mem_req.memory_type_bits
      required_memory_properties device_memory_properties with
  | none => ([Event.create_image info], Except.error "failed to find suitable memory type!")
  | some idx =>
    ([Event.create_image info,
      Event.alloc_memory oracle.image_mem_req.size idx,
      Event.bind_image_memory 0], Except.ok ())

/-- The staging size computation of create_texture_image:
`(size_of::<u8>() as u32 * 4 * w * h * array_size) as vk::DeviceSize`, a u32
product (hence reduced mod 2^32) widened to u64. -/
def mem_size (image_width image_height array_size : Nat) : Nat :=
  (1 * 4 * image_width * image_height * array_size) % 2 ^ 32

/-- The candidate mip level count: floor(log2(max(w, h))) + 1 when mips are
requested, else 1.  The source computes the logarithm through f32; for u32
extents the floored result agrees with Nat.log2, and the value is discarded
anyway (see forced_mip_levels). -/
def candidate_mip_levels (image_width image_height : Nat) (create_mips : Bool) : Nat :=
  if create_mips then Nat.log2 (max image_width image_height) + 1 else 1

/-- The mip level count create_texture_image actually uses: the source
computes the candidate and then immediately shadows it with
`let mip_levels = 1;` (marked FIXME), so the result is 1 for every input. -/
def forced_mip_levels (image_width image_height : Nat) (create_mips : Bool) : Nat :=
  let _computed := candidate_mip_levels image_width image_height create_mips
  let mip_levels := 1
  mip_levels

structure TextureImageResult where
  mip_levels : Nat
deriving DecidableEq

/-- create_texture_image: checks the staging size, creates and fills the
staging buffer (the mapped write copies exactly image_data.len() bytes),
creates the image, transitions it to TRANSFER_DST, copies the buffer into
it, destroys the staging buffer, and generates mipmaps, returning the mip
level count used. -/
def create_texture_image (oracle : DeviceOracle)
    (device_memory_properties : List MemPropFlags) (format : Format)
    (image_data : List Nat) (image_width image_height array_size : Nat)
    (create_mips : Bool) : List Event × Except String TextureImageResult :=
  if mem_size image_width image_height array_size = 0 then
    ([], Except.error "Failed to load texture image!")
  else
    match create_image oracle image_width image_height array_size
        (forced_mip_levels image_width image_height create_mips) format
        ImageTiling.OPTIMAL ⟨true, true, true⟩ MemPropFlags.DEVICE_LOCAL
        device_memory_properties with
    | (img_events, Except.error e) =>
      ([Event.create_buffer (mem_size image_width image_height array_size),
        Event.map_write (mem_size image_width image_height array_size) image_data.length]
        ++ img_events, Except.error e)
    | (img_events, Except.ok _) =>
      match transition_image_layout ImageLayout.UNDEFINED ImageLayout.TRANSFER_DST_OPTIMAL
          (forced_mip_levels image_width image_height create_mips) array_size with
      | Except.error e =>
        ([Event.create_buffer (mem_size image_width image_height array_size),
          Event.map_write (mem_size image_width image_height array_size) image_data.length]
          ++ img_events, Except.error e)
      | Except.ok transition_events =>
        ([Event.create_buffer (mem_size image_width image_height array_size),
          Event.map_write (mem_size image_width image_height array_size) image_data.length]
          ++ img_events ++ transition_events
          ++ copy_buffer_to_image image_width image_height array_size
          ++ [Event.destroy_buffer, Event.free_staging_memory]
          ++ generate_mipmaps image_width image_height
              (forced_mip_levels image_width image_height create_mips) array_size,
         Except.ok { mip_levels := forced_mip_levels image_width image_height create_mips })

/-- The CubeTexture struct: the four owned handles, the mip level count and
the format. -/
structure CubeTexture where
  texture_image : Nat
  texture_image_memory : Nat
  texture_image_view : Nat
  texture_sampler : Nat
  mip_levels : Nat
  format : Format
deriving DecidableEq

/-- CubeTexture::from_pixels: create_texture_image, then the cube image view
over all mip levels and layers, then the sampler with max_lod = mip_levels. -/
def from_pixels (oracle : DeviceOracle) (device_memory_properties : List MemPropFlags)
    (format : Format) (pixel_data : List Nat) (width height array_size : Nat)
    (create_mips : Bool) : List Event × Except String CubeTexture :=
  match create_texture_image oracle device_memory_properties format pixel_data
      width height array_size create_mips with
  | (events, Except.error e) => (events, Except.error e)
  | (events, Except.ok r) =>
    (events ++ [Event.create_image_view r.mip_levels array_size,
                Event.create_sampler r.mip_levels],
     Except.ok { texture_image := oracle.image_handle,
                 texture_image_memory := oracle.memory_handle,
                 texture_image_view := oracle.view_handle,
                 texture_sampler := oracle.sampler_handle,
                 mip_levels := r.mip_levels, format := format })

/-- One decoded face image: extent and raw RGBA bytes. -/
structure DecodedImage where
  width : Nat
  height : Nat
  data : List Nat
deriving DecidableEq

/-- The six face file names, in the cube face order +X, -X, +Y, -Y, +Z, -Z. -/
def faces : List String :=
  ["right.jpg", "left.jpg", "top.jpg", "bottom.jpg", "front.jpg", "back.jpg"]

/-- The face loop of CubeTexture::new: opens each face (unwrap on failure)
and appends every decoded byte vector to the accumulated data.  The source
declares `let mut initialized = false;` and never assigns it again, so the
`if !initialized` body runs on every iteration: the extent is reassigned
from every face, and the extent finally reported is that of the last face.
The flag is threaded unchanged here to mirror that.  No dimension of any
face is ever compared to another. -/
def load_faces_loop (decode : String → Option DecodedImage) :
    List String → Bool → Nat → Nat → List Nat → Except String (Nat × Nat × List Nat)
  | [], _, image_width, image_height, acc => Except.ok (image_width, image_height, acc)
  | face :: rest, inited, image_width, image_height, acc =>
    match decode face with
    | none => Except.error ("Failed to open " ++ face)
    | some img =>
      if inited then
        load_faces_loop decode rest inited image_width image_height (acc ++ img.data)
      else
        load_faces_loop decode rest inited img.width img.height (acc ++ img.data)

def load_faces (decode : String → Option DecodedImage) :
    Except String (Nat × Nat × List Nat) :=
  load_faces_loop decode faces false 0 0 []

/-- CubeTexture::new: loads the six faces and calls from_pixels with the
R8G8B8A8_SRGB format, faces.len() layers, and create_mips = true. -/
def CubeTexture.new (oracle : DeviceOracle)
    (device_memory_properties : List MemPropFlags)
    (decode : String → Option DecodedImage) : List Event × Except String CubeTexture :=
  match load_faces decode with
  | Except.error e => ([], Except.error e)
  | Except.ok (image_width, image_height, image_array_data) =>
    from_pixels oracle device_memory_properties Format.R8G8B8A8_SRGB
      image_array_data image_width image_height faces.length true

/-- A release of one GPU handle during destruction. -/
inductive DestroyAction where
  | destroy_sampler (handle : Nat)
  | destroy_image_view (handle : Nat)
  | destroy_image (handle : Nat)
  | free_memory (handle : Nat)
deriving DecidableEq

/-- Drop for CubeTexture: the four destroy calls, in source order. -/
def CubeTexture.drop (t : CubeTexture) : List DestroyAction :=
  [DestroyAction.destroy_sampler t.texture_sampler,
   DestroyAction.destroy_image_view t.texture_image_view,
   DestroyAction.destroy_image t.texture_image,
   DestroyAction.free_memory t.texture_image_memory]

def is_sampler_destroy : DestroyAction → Bool
  | DestroyAction.destroy_sampler _ => true
  | _ => false

def is_view_destroy : DestroyAction → Bool
  | DestroyAction.destroy_image_view _ => true
  | _ => false

def is_image_destroy : DestroyAction → Bool
  | DestroyAction.destroy_image _ => true
  | _ => false

def is_memory_free : DestroyAction → Bool
  | DestroyAction.free_memory _ => true
  | _ => false

/-- Whether an Except is a success. -/
def okb {ε α : Type} : Except ε α → Bool
  | Except.ok _ => true
  | Except.error _ => false

/-- Concrete memory properties for witnesses: one device-local type. -/
def w_mem_props : List MemPropFlags := [MemPropFlags.DEVICE_LOCAL]

/-- Concrete device oracle for witnesses. -/
def w_oracle : DeviceOracle :=
  { image_mem_req := { size := 64, memory_type_bits := 1 },
    image_handle := 10, memory_handle := 11, view_handle := 12, sampler_handle := 13 }

/-- Concrete pixel data for witnesses: a 2 by 2 RGBA image with 6 layers. -/
def w_data : List Nat := List.replicate 96 0

/-- Concrete decoder for witnesses: every face decodes to a 1 by 1 image. -/
def good_decode : String → Option DecodedImage :=
  fun _ => some { width := 1, height := 1, data := [0, 0, 0, 0] }

def g_face : List Nat := [0, 0, 0, 0]

/-- Concrete decoder with mismatched dimensions: the left face is 1 by 1
while every other face is 2 by 2. -/
def mm_decode : String → Option DecodedImage :=
  fun face =>
    if face = "left.jpg" then some { width := 1, height := 1, data := [9, 9, 9, 9] }
    else some { width := 2, height := 2, data := List.replicate 16 0 }

/-- Claim C3: transition_image_layout succeeds exactly on the three layout
pairs of the table of the spec, selecting for each the access masks and
pipeline stages of that table and issuing one barrier over the full mip and
layer range, and fails with the unsupported-transition error on every other
pair. -/
theorem c3_transition_table (o n : ImageLayout) (m lc : Nat) :
    transition_image_layout o n m lc =
      (spec_transition_select o n).map (fun p =>
        [Event.barrier
          { src_access_mask := p.1, dst_access_mask := p.2.1,
            old_layout := o, new_layout := n,
            base_mip_level := 0, level_count := m,
            base_array_layer := 0, layer_count := lc,
            src_stage := p.2.2.1, dst_stage := p.2.2.2 }]) := by
  cases o <;> cases n <;> rfl

/-- Counterexample to claim C2 as stated: with mip_levels = 1 the function
is not a no-op on recorded commands; at extent 64 by 64 with 6 layers it
records a barrier (the final level transition), so the barrier count is not
zero. -/
theorem c2_counterexample :
    ¬ (blit_count (generate_mipmaps 64 64 1 6) = 0 ∧
       barrier_count (generate_mipmaps 64 64 1 6) = 0) := by
  decide

/-- Claim C2 as amended: with mip_levels = 1, generate_mipmaps records zero
blits but exactly one image memory barrier, the final transition of mip
level 0 from TRANSFER_DST to SHADER_READ_ONLY. -/
theorem c2_amended (w h lc : Nat) :
    generate_mipmaps w h 1 lc = [Event.barrier (final_mip_barrier 1 lc)] ∧
    blit_count (generate_mipmaps w h 1 lc) = 0 ∧
    barrier_count (generate_mipmaps w h 1 lc) = 1 ∧
    (final_mip_barrier 1 lc).base_mip_level = 0 ∧
    (final_mip_barrier 1 lc).old_layout = ImageLayout.TRANSFER_DST_OPTIMAL ∧
    (final_mip_barrier 1 lc).new_layout = ImageLayout.SHADER_READ_ONLY_OPTIMAL := by
  exact ⟨rfl, rfl, rfl, rfl, rfl, rfl⟩

/-- Claim C8: destroying a CubeTexture releases the sampler, then the image
view, then the image, then the memory, each exactly once, and releases
nothing else. -/
theorem c8_drop_order (t : CubeTexture) :
    CubeTexture.drop t =
      [DestroyAction.destroy_sampler t.texture_sampler,
       DestroyAction.destroy_image_view t.texture_image_view,
       DestroyAction.destroy_image t.texture_image,
       DestroyAction.free_memory t.texture_image_memory] ∧
    (CubeTexture.drop t).length = 4 ∧
    (CubeTexture.drop t).countP is_sampler_destroy = 1 ∧
    (CubeTexture.drop t).countP is_view_destroy = 1 ∧
    (CubeTexture.drop t).countP is_image_destroy = 1 ∧
    (CubeTexture.drop t).countP is_memory_free = 1 := by
  exact ⟨rfl, rfl, rfl, rfl, rfl, rfl⟩

lemma blit_events_append (a b : List Event) :
    blit_events (a ++ b) = blit_events a ++ blit_events b := by
  induction a with
  | nil => rfl
  | cons e rest ih => cases e <;> simp [blit_events, ih]

lemma blit_events_mip_loop (layer_count : Nat) :
    ∀ (n i : Nat) (w h : Int),
      blit_events (mip_loop layer_count w h i n) =
        (List.range n).map (fun k =>
          blit_record (i + k) (mip_dims w h k).1 (mip_dims w h k).2) := by
  intro n
  induction n with
  | zero => intro i w h; rfl
  | succ n ih =>
    intro i w h
    simp only [mip_loop, blit_events]
    rw [ih (i + 1) (mipHalf w) (mipHalf h), List.range_succ_eq_map]
    simp only [List.map_cons, List.map_map]
    refine congrArg₂ List.cons rfl ?_
    refine List.map_congr_left ?_
    intro k _
    simp only [Function.comp]
    have h1 : i + 1 + k = i + (k + 1) := by omega
    rw [h1]
    rfl

/-- Claim C4: with mip_levels = N > 1, generate_mipmaps records exactly N-1
blits; the blit of loop level i = k+1 reads level k at the current mip
extent mip_dims k and writes level k+1 at the halved extent, with linear
filtering, and covers a single array layer (base layer 0, layer count 1)
regardless of the layer_count argument (which does not occur in the blit
list). -/
theorem c4_mip_blits (w h N lc : Nat) (_hN : 1 < N) :
    blit_events (generate_mipmaps w h N lc) =
      (List.range (N - 1)).map (fun k =>
        { src_mip_level := k, src_base_array_layer := 0, src_layer_count := 1,
          src_offset_x := (mip_dims (i32ofU32 w) (i32ofU32 h) k).1,
          src_offset_y := (mip_dims (i32ofU32 w) (i32ofU32 h) k).2,
          dst_mip_level := k + 1, dst_base_array_layer := 0, dst_layer_count := 1,
          dst_offset_x := mipHalf (mip_dims (i32ofU32 w) (i32ofU32 h) k).1,
          dst_offset_y := mipHalf (mip_dims (i32ofU32 w) (i32ofU32 h) k).2,
          filter := Filter.LINEAR }) ∧
    blit_count (generate_mipmaps w h N lc) = N - 1 := by
  have h1 : blit_events (generate_mipmaps w h N lc) =
      (List.range (N - 1)).map (fun k =>
        { src_mip_level := k, src_base_array_layer := 0, src_layer_count := 1,
          src_offset_x := (mip_dims (i32ofU32 w) (i32ofU32 h) k).1,
          src_offset_y := (mip_dims (i32ofU32 w) (i32ofU32 h) k).2,
          dst_mip_level := k + 1, dst_base_array_layer := 0, dst_layer_count := 1,
          dst_offset_x := mipHalf (mip_dims (i32ofU32 w) (i32ofU32 h) k).1,
          dst_offset_y := mipHalf (mip_dims (i32ofU32 w) (i32ofU32 h) k).2,
          filter := Filter.LINEAR }) := by
    rw [generate_mipmaps, blit_events_append,
      blit_events_mip_loop lc (N - 1) 1 (i32ofU32 w) (i32ofU32 h)]
    have h2 : blit_events [Event.barrier (final_mip_barrier N lc)] = [] := rfl
    rw [h2, List.append_nil]
    refine List.map_congr_left ?_
    intro k _
    have h3 : 1 + k = k + 1 := by omega
    rw [blit_record, h3]
    simp
  refine ⟨h1, ?_⟩
  rw [blit_count, h1, List.length_map, List.length_range]

/-- Witness for C4 at a concrete input: N = 3 levels from an 8 by 4 texture
with 6 layers gives exactly 2 blits. -/
theorem c4_mip_blits_witness :
    1 < 3 ∧ blit_count (generate_mipmaps 8 4 3 6) = 3 - 1 :=
  ⟨by decide, (c4_mip_blits 8 4 3 6 (by decide)).2⟩

/-- Claim C5: create_texture_image computes the staging byte size as
4 * width * height * layer_count (as a u32 product, hence reduced mod 2^32,
which agrees with the plain product whenever it fits in a u32), and when
that product is zero (for example when width, height or layer_count is 0)
it terminates fatally with an empty event trace, that is before any GPU
resource is created. -/
theorem c5_zero_size_fatal (oracle : DeviceOracle) (props : List MemPropFlags)
    (fmt : Format) (data : List Nat) (w h asz : Nat) (cm : Bool) :
    mem_size w h asz = 4 * w * h * asz % 2 ^ 32 ∧
    (4 * w * h * asz < 2 ^ 32 → mem_size w h asz = 4 * w * h * asz) ∧
    (4 * w * h * asz = 0 →
      create_texture_image oracle props fmt data w h asz cm =
        ([], Except.error "Failed to load texture image!")) := by
  refine ⟨rfl, ?_, ?_⟩
  · intro hlt
    exact Nat.mod_eq_of_lt hlt
  · intro h0
    have hm : mem_size w h asz = 0 := by
      have he : mem_size w h asz = 4 * w * h * asz % 2 ^ 32 := rfl
      rw [he, h0, Nat.zero_mod]
    simp [create_texture_image, hm]

/-- Witness for C5 at a concrete input: width 0 gives size 0 and the fatal
empty-trace result. -/
theorem c5_zero_size_fatal_witness :
    4 * 0 * 2 * 6 = 0 ∧
    create_texture_image w_oracle w_mem_props Format.R8G8B8A8_SRGB [] 0 2 6 true =
      ([], Except.error "Failed to load texture image!") :=
  ⟨by decide,
   (c5_zero_size_fatal w_oracle w_mem_props Format.R8G8B8A8_SRGB [] 0 2 6 true).2.2
     (by decide)⟩

/-- Claim C10: from_pixels (through create_texture_image) performs no check
that pixel_data has length 4 * width * height * layer_count: whenever the
staging size is nonzero the mapped-memory write event writes exactly
pixel_data.length bytes into the staging buffer of mem_size bytes, and the
outcome (success or failure) is identical for pixel data of any other
length, so a longer input writes past the end of the staging allocation and
a shorter one leaves trailing staging bytes unwritten yet still uploaded. -/
theorem c10_no_length_check (oracle : DeviceOracle) (props : List MemPropFlags)
    (fmt : Format) (data data2 : List Nat) (w h asz : Nat) (cm : Bool)
    (hsz : mem_size w h asz ≠ 0) :
    Event.map_write (mem_size w h asz) data.length ∈
      (create_texture_image oracle props fmt data w h asz cm).1 ∧
    (create_texture_image oracle props fmt data w h asz cm).2 =
      (create_texture_image oracle props fmt data2 w h asz cm).2 := by
  rcases hci : create_image oracle w h asz (forced_mip_levels w h cm) fmt
      ImageTiling.OPTIMAL ⟨true, true, true⟩ MemPropFlags.DEVICE_LOCAL props with
    ⟨img_events, ires⟩
  cases ires with
  | error e =>
    constructor <;> simp [create_texture_image, hsz, hci]
  | ok u =>
    cases htr : transition_image_layout ImageLayout.UNDEFINED
        ImageLayout.TRANSFER_DST_OPTIMAL (forced_mip_levels w h cm) asz with
    | error e =>
      constructor <;> simp [create_texture_image, hsz, hci, htr]
    | ok te =>
      constructor <;> simp [create_texture_image, hsz, hci, htr]

/-- Witness for C10 at a concrete input: a 1 by 1 single-layer image has a
4-byte staging buffer, yet passing 5 bytes records a 5-byte write. -/
theorem c10_no_length_check_witness :
    mem_size 1 1 1 ≠ 0 ∧
    Event.map_write 4 5 ∈
      (create_texture_image w_oracle w_mem_props Format.R8G8B8A8_SRGB
        [7, 7, 7, 7, 7] 1 1 1 true).1 ∧
    5 > 4 :=
  ⟨by decide,
   (c10_no_length_check w_oracle w_mem_props Format.R8G8B8A8_SRGB
     [7, 7, 7, 7, 7] [] 1 1 1 true (by decide)).1,
   by decide⟩

/-- Claim C1: the mip level count the texture pipeline returns is exactly 1
for every input: the candidate count floor(log2(max(w, h))) + 1 is shadowed
by the forced value 1 before use, so create_texture_image, from_pixels and
CubeTexture.new all report 1 mip level regardless of the create_mips flag
and of the extent. -/
theorem c1_mip_levels_forced_one :
    (∀ w h cm, forced_mip_levels w h cm = 1) ∧
    (∀ oracle props fmt data w h asz cm r,
      (create_texture_image oracle props fmt data w h asz cm).2 = Except.ok r →
        r.mip_levels = 1) ∧
    (∀ oracle props fmt data w h asz cm t,
      (from_pixels oracle props fmt data w h asz cm).2 = Except.ok t →
        t.mip_levels = 1) ∧
    (∀ oracle props decode t,
      (CubeTexture.new oracle props decode).2 = Except.ok t → t.mip_levels = 1) := by
  have h1 : ∀ (oracle : DeviceOracle) (props : List MemPropFlags) (fmt : Format)
      (data : List Nat) (w h asz : Nat) (cm : Bool) (r : TextureImageResult),
      (create_texture_image oracle props fmt data w h asz cm).2 = Except.ok r →
        r.mip_levels = 1 := by
    intro oracle props fmt data w h asz cm r hr
    by_cases hm : mem_size w h asz = 0
    · simp [create_texture_image, hm] at hr
    · rcases hci : create_image oracle w h asz (forced_mip_levels w h cm) fmt
          ImageTiling.OPTIMAL ⟨true, true, true⟩ MemPropFlags.DEVICE_LOCAL props with
        ⟨img_events, ires⟩
      cases ires with
      | error e => simp [create_texture_image, hm, hci] at hr
      | ok u =>
        cases htr : transition_image_layout ImageLayout.UNDEFINED
            ImageLayout.TRANSFER_DST_OPTIMAL (forced_mip_levels w h cm) asz with
        | error e => simp [create_texture_image, hm, hci, htr] at hr
        | ok te =>
          simp [create_texture_image, hm, hci, htr] at hr
          rw [← hr]
          rfl
  have h2 : ∀ (oracle : DeviceOracle) (props : List MemPropFlags) (fmt : Format)
      (data : List Nat) (w h asz : Nat) (cm : Bool) (t : CubeTexture),
      (from_pixels oracle props fmt data w h asz cm).2 = Except.ok t →
        t.mip_levels = 1 := by
    intro oracle props fmt data w h asz cm t ht
    rcases hc : create_texture_image oracle props fmt data w h asz cm with ⟨events, res⟩
    cases res with
    | error e => simp [from_pixels, hc] at ht
    | ok r =>
      simp [from_pixels, hc] at ht
      rw [← ht]
      exact h1 oracle props fmt data w h asz cm r (by rw [hc])
  refine ⟨fun w h cm => rfl, h1, h2, ?_⟩
  intro oracle props decode t ht
  cases hl : load_faces decode with
  | error e => simp [CubeTexture.new, hl] at ht
  | ok whd =>
    obtain ⟨w, h, data⟩ := whd
    rw [CubeTexture.new, hl] at ht
    exact h2 oracle props Format.R8G8B8A8_SRGB data w h faces.length true t ht

/-- Witness for C1 at a concrete input: a successful 2 by 2, 6-layer
construction reports 1 mip level. -/
theorem c1_mip_levels_forced_one_witness :
    (create_texture_image w_oracle w_mem_props Format.R8G8B8A8_SRGB w_data
      2 2 6 true).2 = Except.ok { mip_levels := 1 } ∧
    ({ mip_levels := 1 } : TextureImageResult).mip_levels = 1 :=
  ⟨by rfl,
   c1_mip_levels_forced_one.2.1 w_oracle w_mem_props Format.R8G8B8A8_SRGB w_data
     2 2 6 true { mip_levels := 1 } (by rfl)⟩

lemma load_faces_loop_isOk (decode : String → Option DecodedImage) :
    ∀ (fs : List String) (inited : Bool) (w h : Nat) (acc : List Nat),
      okb (load_faces_loop decode fs inited w h acc) =
        fs.all (fun f => (decode f).isSome) := by
  intro fs
  induction fs with
  | nil => intro inited w h acc; rfl
  | cons f rest ih =>
    intro inited w h acc
    cases hd : decode f with
    | none => simp [load_faces_loop, hd, okb]
    | some img => cases inited <;> simp [load_faces_loop, hd, ih]

/-- Counterexample to claim C6 as stated: with the left face decoded at 1 by
1 while the first (right) face is 2 by 2, CubeTexture::new does not
terminate fatally; the load succeeds with the extent of the first face and
the mismatched bytes appended. -/
theorem c6_counterexample :
    mm_decode "right.jpg" = some { width := 2, height := 2, data := List.replicate 16 0 } ∧
    mm_decode "left.jpg" = some { width := 1, height := 1, data := [9, 9, 9, 9] } ∧
    okb (load_faces mm_decode) = true := by
  refine ⟨by decide, by decide, by decide⟩

/-- Claim C6 as amended: CubeTexture::new loads exactly the six fixed face
files right.jpg, left.jpg, top.jpg, bottom.jpg, front.jpg, back.jpg in that
order from the given directory and terminates fatally exactly when some
face is missing or undecodable; no face dimension is ever validated, and
because the initialized flag of the loop is never set, the width and height
are reassigned from every face, so the extent finally reported is that of
the last face (back.jpg), with all six byte vectors appended unchecked in
face order. -/
theorem c6_amended_face_loading (decode : String → Option DecodedImage) :
    (okb (load_faces decode) = true ↔ ∀ f ∈ faces, (decode f).isSome = true) ∧
    (∀ r l tp bt fr bk, decode "right.jpg" = some r → decode "left.jpg" = some l →
      decode "top.jpg" = some tp → decode "bottom.jpg" = some bt →
      decode "front.jpg" = some fr → decode "back.jpg" = some bk →
      load_faces decode =
        Except.ok (bk.width, bk.height,
          r.data ++ l.data ++ tp.data ++ bt.data ++ fr.data ++ bk.data)) := by
  constructor
  · rw [load_faces, load_faces_loop_isOk]
    exact List.all_eq_true
  · intro r l tp bt fr bk hr hl htp hbt hfr hbk
    simp [load_faces, faces, load_faces_loop, hr, hl, htp, hbt, hfr, hbk,
      List.append_assoc]

/-- Witness for C6 as amended: with every face decoding to a 1 by 1 image
the load succeeds with the extent of the first face and the six byte
vectors concatenated in face order. -/
theorem c6_amended_face_loading_witness :
    okb (load_faces good_decode) = true ∧
    load_faces good_decode =
      Except.ok (1, 1, g_face ++ g_face ++ g_face ++ g_face ++ g_face ++ g_face) :=
  ⟨(c6_amended_face_loading good_decode).1.mpr (by decide),
   (c6_amended_face_loading good_decode).2
     { width := 1, height := 1, data := g_face }
     { width := 1, height := 1, data := g_face }
     { width := 1, height := 1, data := g_face }
     { width := 1, height := 1, data := g_face }
     { width := 1, height := 1, data := g_face }
     { width := 1, height := 1, data := g_face }
     rfl rfl rfl rfl rfl rfl⟩

/-- Claim C7: CubeTexture::new hands the loaded pixels to the pixel-level
constructor with format R8G8B8A8 sRGB, layer count 6, and the mip
generation flag set to true; consequently a successfully constructed
texture reports the R8G8B8A8 sRGB format. -/
theorem c7_new_forces_srgb_six_layers_mips (oracle : DeviceOracle)
    (props : List MemPropFlags) (decode : String → Option DecodedImage)
    (w h : Nat) (data : List Nat)
    (hload : load_faces decode = Except.ok (w, h, data)) :
    CubeTexture.new oracle props decode =
      from_pixels oracle props Format.R8G8B8A8_SRGB data w h 6 true ∧
    (∀ t, (CubeTexture.new oracle props decode).2 = Except.ok t →
      t.format = Format.R8G8B8A8_SRGB) := by
  have he : CubeTexture.new oracle props decode =
      from_pixels oracle props Format.R8G8B8A8_SRGB data w h 6 true := by
    rw [CubeTexture.new, hload]
    rfl
  refine ⟨he, ?_⟩
  intro t ht
  rw [he] at ht
  rcases hc : create_texture_image oracle props Format.R8G8B8A8_SRGB data w h 6 true with
    ⟨events, res⟩
  cases res with
  | error e => simp [from_pixels, hc] at ht
  | ok r =>
    simp [from_pixels, hc] at ht
    rw [← ht]

/-- Witness for C7 at a concrete input: the all-faces-decode decoder. -/
theorem c7_new_forces_srgb_six_layers_mips_witness :
    CubeTexture.new w_oracle w_mem_props good_decode =
      from_pixels w_oracle w_mem_props Format.R8G8B8A8_SRGB
        (g_face ++ g_face ++ g_face ++ g_face ++ g_face ++ g_face) 1 1 6 true :=
  (c7_new_forces_srgb_six_layers_mips w_oracle w_mem_props good_decode 1 1
    (g_face ++ g_face ++ g_face ++ g_face ++ g_face ++ g_face) (by rfl)).1

lemma find_mem_type_aux_some (type_bits : Nat) (required : MemPropFlags) :
    ∀ (props : List MemPropFlags) (i idx : Nat),
      find_mem_type_aux type_bits required i props = some idx →
        i ≤ idx ∧ type_bits.testBit idx = true ∧
        ∃ flags, props[idx - i]? = some flags ∧
          MemPropFlags.hasAll flags required = true := by
  intro props
  induction props with
  | nil =>
    intro i idx hfind
    exact absurd hfind (by simp [find_mem_type_aux])
  | cons flags rest ih =>
    intro i idx hfind
    rw [find_mem_type_aux] at hfind
    split at hfind
    · rename_i hcond
      simp at hcond
      obtain ⟨hbit, hall⟩ := hcond
      obtain hidx := Option.some.inj hfind
      subst hidx
      exact ⟨Nat.le_refl i, hbit, flags, by simp, hall⟩
    · obtain ⟨hle, hbit, flags2, hget, hall⟩ := ih (i + 1) idx hfind
      refine ⟨by omega, hbit, flags2, ?_, hall⟩
      have hsub : idx - i = (idx - (i + 1)) + 1 := by omega
      rw [hsub]
      simpa using hget

/-- Claim C9: create_image creates the image with the cube-compatible flag
and 2D image type, allocates memory whose size equals (hence is at least)
the memory requirement the device reports rather than the raw pixel size,
chooses a memory type allowed by the requirement bits and satisfying the
required memory properties, and binds the memory to the image at offset 0. -/
theorem c9_create_image (oracle : DeviceOracle) (w h asz m : Nat) (fmt : Format)
    (tiling : ImageTiling) (usage : ImageUsageFlags) (req : MemPropFlags)
    (props : List MemPropFlags) (idx : Nat)
    (hfind : find_memory_type oracle.image_mem_req.memory_type_bits req props =
      some idx) :
    create_image oracle w h asz m fmt tiling usage req props =
      ([Event.create_image
          { cube_compatible := true, image_type := ImageType.TYPE_2D, format := fmt,
            width := w, height := h, depth := 1, mip_levels := m,
            array_layers := asz, tiling := tiling, usage := usage,
            initial_layout := ImageLayout.UNDEFINED },
        Event.alloc_memory oracle.image_mem_req.size idx,
        Event.bind_image_memory 0], Except.ok ()) ∧
    oracle.image_mem_req.memory_type_bits.testBit idx = true ∧
    ∃ flags, props[idx]? = some flags ∧ MemPropFlags.hasAll flags req = true := by
  constructor
  · simp [create_image, hfind]
  · rw [find_memory_type] at hfind
    obtain ⟨hle, hbit, flags, hget, hall⟩ :=
      find_mem_type_aux_some oracle.image_mem_req.memory_type_bits req props 0 idx hfind
    exact ⟨hbit, flags, by simpa using hget, hall⟩

/-- Witness for C9 at a concrete input: one device-local memory type, found
at index 0, with the allocation sized to the reported requirement. -/
theorem c9_create_image_witness :
    create_image w_oracle 2 2 6 1 Format.R8G8B8A8_SRGB ImageTiling.OPTIMAL
        ⟨true, true, true⟩ MemPropFlags.DEVICE_LOCAL w_mem_props =
      ([Event.create_image
          { cube_compatible := true, image_type := ImageType.TYPE_2D,
            format := Format.R8G8B8A8_SRGB, width := 2, height := 2, depth := 1,
            mip_levels := 1, array_layers := 6, tiling := ImageTiling.OPTIMAL,
            usage := ⟨true, true, true⟩,
            initial_layout := ImageLayout.UNDEFINED },
        Event.alloc_memory 64 0,
        Event.bind_image_memory 0], Except.ok ()) :=
  (c9_create_image w_oracle 2 2 6 1 Format.R8G8B8A8_SRGB ImageTiling.OPTIMAL
    ⟨true, true, true⟩ MemPropFlags.DEVICE_LOCAL w_mem_props 0 (by decide)).1

end CubeTex
